import Mathlib

/-!
Shallow embedding of src/ffi.rs from hwloc-rs: the `ObjectType`,
`TypeDepthError` and `TopologyFlag` enums with their trait
implementations, and the two platform-specific foreign-function
declaration blocks, together with theorems about them.
-/

namespace HwlocRs

/-- Embeds the Rust enum `ObjectType` (src/ffi.rs, `#[repr(u32)]`), with its
21 variants in declaration order. -/
inductive ObjectType
  | Machine
  | Package
  | Core
  | PU
  | L1Cache
  | L2Cache
  | L3Cache
  | L4Cache
  | L5Cache
  | L1ICache
  | L2ICache
  | L3ICache
  | Group
  | NUMANode
  | Bridge
  | PCIDevice
  | OSDevice
  | Misc
  | Memcache
  | Die
  | TypeMax
  deriving DecidableEq, Repr, Fintype

/-- The `u32` discriminant Rust assigns to each `ObjectType` variant: with
`#[repr(u32)]` and no explicit values, variants get sequential
discriminants starting at 0 in declaration order. -/
def ObjectType.toU32 : ObjectType → Nat
  | .Machine => 0
  | .Package => 1
  | .Core => 2
  | .PU => 3
  | .L1Cache => 4
  | .L2Cache => 5
  | .L3Cache => 6
  | .L4Cache => 7
  | .L5Cache => 8
  | .L1ICache => 9
  | .L2ICache => 10
  | .L3ICache => 11
  | .Group => 12
  | .NUMANode => 13
  | .Bridge => 14
  | .PCIDevice => 15
  | .OSDevice => 16
  | .Misc => 17
  | .Memcache => 18
  | .Die => 19
  | .TypeMax => 20

/-- Embeds `PartialOrd for ObjectType` (src/ffi.rs lines 118-128). The Rust
code calls the foreign routine `hwloc_compare_types` and matches on the
returned signed integer with the guards `c < 0`, `c == 0`, `c > 0` and a
catch-all arm returning `None`. The foreign routine is abstracted as a
parameter `cmp` returning the C `int` as a mathematical integer. -/
def ObjectType.pcmp (cmp : ObjectType → ObjectType → Int) (a b : ObjectType) :
    Option Ordering :=
  let compared := cmp a b
  if compared < 0 then some Ordering.lt
  else if compared = 0 then some Ordering.eq
  else if 0 < compared then some Ordering.gt
  else none

/-- Embeds `PartialEq for ObjectType::eq` (src/ffi.rs lines 130-137): it
matches `self.partial_cmp(other)` and returns true exactly on
`Some(Ordering::Equal)`. -/
def ObjectType.rustEq (cmp : ObjectType → ObjectType → Int) (a b : ObjectType) :
    Bool :=
  match ObjectType.pcmp cmp a b with
  | some Ordering.eq => true
  | _ => false

/-- Modelled from the spec: `hwloc_compare_types` is only declared in this
repository (src/ffi.rs line 471); its body lives in the native hwloc
library. The spec and the doc comment on `ObjectType` state the contract:
A compares equal to B when the types are the same, A compares less than B
when objects of type A include objects of type B, and A compares greater
when objects of type A are included in objects of type B — equivalently,
types compare by relative containment depth, the machine being shallowest
and the processing unit the deepest compute object, with caches between
cores and processing units. This table realises that containment depth. -/
def typeOrder : ObjectType → Int
  | .Machine => 0
  | .Group => 1
  | .NUMANode => 2
  | .Package => 3
  | .Die => 4
  | .Core => 5
  | .L5Cache => 6
  | .L4Cache => 7
  | .L3Cache => 8
  | .L3ICache => 9
  | .L2Cache => 10
  | .L2ICache => 11
  | .L1Cache => 12
  | .L1ICache => 13
  | .Bridge => 14
  | .PCIDevice => 15
  | .OSDevice => 16
  | .PU => 17
  | .Misc => 18
  | .Memcache => 19
  | .TypeMax => 20

/-- Modelled from the spec: the signed-integer result of the native
comparison routine, negative when the first type is shallower (contains
the second), zero when equal, positive when deeper. -/
def hwloc_compare_types (a b : ObjectType) : Int :=
  typeOrder a - typeOrder b

/-- Embeds the Rust enum `TypeDepthError` (src/ffi.rs lines 139-159). -/
inductive TypeDepthError
  | TypeDepthUnknown
  | TypeDepthMultiple
  | TypeDepthNumaNode
  | TypeDepthBridge
  | TypeDepthPCIDevice
  | TypeDepthOSDevice
  | TypeDepthMisc
  | TypeDepthMemcache
  | Unkown
  deriving DecidableEq, Repr, Fintype

/-- The explicit discriminant each `TypeDepthError` variant carries in the
Rust source. -/
def TypeDepthError.discriminant : TypeDepthError → Int
  | .TypeDepthUnknown => -1
  | .TypeDepthMultiple => -2
  | .TypeDepthNumaNode => -3
  | .TypeDepthBridge => -4
  | .TypeDepthPCIDevice => -5
  | .TypeDepthOSDevice => -6
  | .TypeDepthMisc => -7
  | .TypeDepthMemcache => -8
  | .Unkown => -99

/-- Embeds the constant `TOPOLOGY_FLAG_INCLUDE_DISALLOWED` (src/ffi.rs). -/
def TOPOLOGY_FLAG_INCLUDE_DISALLOWED : Int := 1

/-- Embeds the constant `TOPOLOGY_FLAG_IS_THIS_SYSTEM` (src/ffi.rs). -/
def TOPOLOGY_FLAG_IS_THIS_SYSTEM : Int := 2

/-- Embeds the constant `TOPOLOGY_FLAG_THISSYSTEM_ALLOWED_RESOURCES`. -/
def TOPOLOGY_FLAG_THISSYSTEM_ALLOWED_RESOURCES : Int := 4

/-- Embeds the Rust enum `TopologyFlag` (src/ffi.rs lines 188-193). -/
inductive TopologyFlag
  | IncludeDisallowed
  | IsThisSystem
  | ThisSystemAllowedResources
  deriving DecidableEq, Repr, Fintype

/-- The `isize` discriminant of each `TopologyFlag` variant, taken from the
constants the Rust source casts into the enum declaration. -/
def TopologyFlag.discriminant : TopologyFlag → Int
  | .IncludeDisallowed => TOPOLOGY_FLAG_INCLUDE_DISALLOWED
  | .IsThisSystem => TOPOLOGY_FLAG_IS_THIS_SYSTEM
  | .ThisSystemAllowedResources => TOPOLOGY_FLAG_THISSYSTEM_ALLOWED_RESOURCES

/-- Embeds `ToPrimitive::to_i64 for TopologyFlag` (src/ffi.rs lines
196-204): each arm returns `Some(variant as i64)`. -/
def TopologyFlag.to_i64 (f : TopologyFlag) : Option Int :=
  match f with
  | .IsThisSystem => some (TopologyFlag.discriminant .IsThisSystem)
  | .IncludeDisallowed => some (TopologyFlag.discriminant .IncludeDisallowed)
  | .ThisSystemAllowedResources =>
      some (TopologyFlag.discriminant .ThisSystemAllowedResources)

/-- Embeds `i64::to_u64` from the num crate, used by `to_u64`: `Some(x as
u64)` when the value is non-negative, `None` otherwise. -/
def i64_to_u64 (x : Int) : Option Nat :=
  if 0 ≤ x then some x.toNat else none

/-- Embeds `ToPrimitive::to_u64 for TopologyFlag` (src/ffi.rs lines
206-208): `self.to_i64().and_then(|x| x.to_u64())`. -/
def TopologyFlag.to_u64 (f : TopologyFlag) : Option Nat :=
  (TopologyFlag.to_i64 f).bind i64_to_u64

/-- Embeds `FromPrimitive::from_i64 for TopologyFlag` (src/ffi.rs lines
212-221): matches `n` against the three constants in source order, else
`None`. -/
def TopologyFlag.from_i64 (n : Int) : Option TopologyFlag :=
  if n = TOPOLOGY_FLAG_IS_THIS_SYSTEM then some .IsThisSystem
  else if n = TOPOLOGY_FLAG_INCLUDE_DISALLOWED then some .IncludeDisallowed
  else if n = TOPOLOGY_FLAG_THISSYSTEM_ALLOWED_RESOURCES then
    some .ThisSystemAllowedResources
  else none

/-- The Rust cast `n as i64` on a `u64` value: values below 2^63 map to
themselves, larger ones wrap around by 2^64. -/
def u64_as_i64 (n : Nat) : Int :=
  if n % 2 ^ 64 < 2 ^ 63 then ((n % 2 ^ 64 : Nat) : Int)
  else ((n % 2 ^ 64 : Nat) : Int) - 2 ^ 64

/-- Embeds `FromPrimitive::from_u64 for TopologyFlag` (src/ffi.rs lines
223-225): `FromPrimitive::from_i64(n as i64)`. -/
def TopologyFlag.from_u64 (n : Nat) : Option TopologyFlag :=
  TopologyFlag.from_i64 (u64_as_i64 n)

/-- The C-level types that appear in the extern declarations of src/ffi.rs:
primitive C types, the opaque handle types, the `ObjectType` enum passed by
value, `bool`, and const/mut raw pointers. -/
inductive CType
  | c_int
  | c_uint
  | c_ulonglong
  | c_char
  | cbool
  | pid_t
  | pthread_t
  | hwlocTopology
  | topologySupport
  | topologyObject
  | intHwlocBitmap
  | objectType
  | constPtr (t : CType)
  | mutPtr (t : CType)
  | void
  deriving DecidableEq, Repr

/-- One foreign-function declaration: its linked name, parameter types in
order, and return type. -/
structure FnSig where
  name : String
  params : List CType
  ret : CType
  deriving DecidableEq, Repr

/-- The library name the windows extern block links against. -/
def windowsLinkName : String := "libhwloc"

/-- The library name the non-windows extern block links against. -/
def unixLinkName : String := "hwloc"

open CType in
/-- Embeds the `#[cfg(target_os = "windows")] #[link(name = "libhwloc")]`
extern block (src/ffi.rs lines 228-349), declaration by declaration in
source order. -/
def windowsExternDecls : List FnSig :=
  [ ⟨"hwloc_topology_init", [mutPtr (mutPtr hwlocTopology)], c_int⟩,
    ⟨"hwloc_topology_load", [mutPtr hwlocTopology], c_int⟩,
    ⟨"hwloc_topology_destroy", [mutPtr hwlocTopology], void⟩,
    ⟨"hwloc_topology_set_flags", [mutPtr hwlocTopology, c_ulonglong], c_int⟩,
    ⟨"hwloc_topology_get_flags", [mutPtr hwlocTopology], c_ulonglong⟩,
    ⟨"hwloc_topology_get_support", [mutPtr hwlocTopology], constPtr topologySupport⟩,
    ⟨"hwloc_topology_get_depth", [mutPtr hwlocTopology], c_uint⟩,
    ⟨"hwloc_get_type_depth", [mutPtr hwlocTopology, objectType], c_int⟩,
    ⟨"hwloc_get_depth_type", [mutPtr hwlocTopology, c_uint], objectType⟩,
    ⟨"hwloc_get_nbobjs_by_depth", [mutPtr hwlocTopology, c_uint], c_uint⟩,
    ⟨"hwloc_get_obj_by_depth", [mutPtr hwlocTopology, c_uint, c_uint], mutPtr topologyObject⟩,
    ⟨"hwloc_set_cpubind", [mutPtr hwlocTopology, constPtr intHwlocBitmap, c_int], c_int⟩,
    ⟨"hwloc_get_cpubind", [mutPtr hwlocTopology, mutPtr intHwlocBitmap, c_int], c_int⟩,
    ⟨"hwloc_get_last_cpu_location", [mutPtr hwlocTopology, mutPtr intHwlocBitmap, c_int], c_int⟩,
    ⟨"hwloc_get_proc_last_cpu_location", [mutPtr hwlocTopology, pid_t, mutPtr intHwlocBitmap, c_int], c_int⟩,
    ⟨"hwloc_set_proc_cpubind", [mutPtr hwlocTopology, pid_t, constPtr intHwlocBitmap, c_int], c_int⟩,
    ⟨"hwloc_get_proc_cpubind", [mutPtr hwlocTopology, pid_t, mutPtr intHwlocBitmap, c_int], c_int⟩,
    ⟨"hwloc_set_thread_cpubind", [mutPtr hwlocTopology, pthread_t, constPtr intHwlocBitmap, c_int], c_int⟩,
    ⟨"hwloc_get_thread_cpubind", [mutPtr hwlocTopology, pthread_t, mutPtr intHwlocBitmap, c_int], c_int⟩,
    ⟨"hwloc_bitmap_alloc", [], mutPtr intHwlocBitmap⟩,
    ⟨"hwloc_bitmap_alloc_full", [], mutPtr intHwlocBitmap⟩,
    ⟨"hwloc_bitmap_free", [mutPtr intHwlocBitmap], void⟩,
    ⟨"hwloc_bitmap_list_asprintf", [mutPtr (mutPtr c_char), constPtr intHwlocBitmap], c_int⟩,
    ⟨"hwloc_bitmap_set", [mutPtr intHwlocBitmap, c_uint], void⟩,
    ⟨"hwloc_bitmap_set_range", [mutPtr intHwlocBitmap, c_uint, c_int], void⟩,
    ⟨"hwloc_bitmap_clr", [mutPtr intHwlocBitmap, c_uint], void⟩,
    ⟨"hwloc_bitmap_clr_range", [mutPtr intHwlocBitmap, c_uint, c_int], void⟩,
    ⟨"hwloc_bitmap_weight", [constPtr intHwlocBitmap], c_int⟩,
    ⟨"hwloc_bitmap_zero", [mutPtr intHwlocBitmap], void⟩,
    ⟨"hwloc_bitmap_iszero", [constPtr intHwlocBitmap], c_int⟩,
    ⟨"hwloc_bitmap_isset", [constPtr intHwlocBitmap, c_uint], c_int⟩,
    ⟨"hwloc_bitmap_singlify", [mutPtr intHwlocBitmap], void⟩,
    ⟨"hwloc_bitmap_not", [mutPtr intHwlocBitmap, constPtr intHwlocBitmap], void⟩,
    ⟨"hwloc_bitmap_first", [constPtr intHwlocBitmap], c_int⟩,
    ⟨"hwloc_bitmap_last", [constPtr intHwlocBitmap], c_int⟩,
    ⟨"hwloc_bitmap_dup", [constPtr intHwlocBitmap], mutPtr intHwlocBitmap⟩,
    ⟨"hwloc_bitmap_compare", [constPtr intHwlocBitmap, constPtr intHwlocBitmap], c_int⟩,
    ⟨"hwloc_bitmap_isequal", [constPtr intHwlocBitmap, constPtr intHwlocBitmap], c_int⟩,
    ⟨"hwloc_bitmap_isfull", [constPtr intHwlocBitmap], c_int⟩,
    ⟨"hwloc_bitmap_next", [constPtr intHwlocBitmap, c_int], c_int⟩,
    ⟨"hwloc_obj_type_snprintf", [mutPtr c_char, c_int, constPtr topologyObject, cbool], c_int⟩,
    ⟨"hwloc_obj_attr_snprintf", [mutPtr c_char, c_int, constPtr topologyObject, constPtr c_char, cbool], c_int⟩,
    ⟨"hwloc_compare_types", [objectType, objectType], c_int⟩ ]

open CType in
/-- Embeds the `#[cfg(not(target_os = "windows"))] #[link(name = "hwloc")]`
extern block (src/ffi.rs lines 351-472), declaration by declaration in
source order. -/
def unixExternDecls : List FnSig :=
  [ ⟨"hwloc_topology_init", [mutPtr (mutPtr hwlocTopology)], c_int⟩,
    ⟨"hwloc_topology_load", [mutPtr hwlocTopology], c_int⟩,
    ⟨"hwloc_topology_destroy", [mutPtr hwlocTopology], void⟩,
    ⟨"hwloc_topology_set_flags", [mutPtr hwlocTopology, c_ulonglong], c_int⟩,
    ⟨"hwloc_topology_get_flags", [mutPtr hwlocTopology], c_ulonglong⟩,
    ⟨"hwloc_topology_get_support", [mutPtr hwlocTopology], constPtr topologySupport⟩,
    ⟨"hwloc_topology_get_depth", [mutPtr hwlocTopology], c_uint⟩,
    ⟨"hwloc_get_type_depth", [mutPtr hwlocTopology, objectType], c_int⟩,
    ⟨"hwloc_get_depth_type", [mutPtr hwlocTopology, c_uint], objectType⟩,
    ⟨"hwloc_get_nbobjs_by_depth", [mutPtr hwlocTopology, c_uint], c_uint⟩,
    ⟨"hwloc_get_obj_by_depth", [mutPtr hwlocTopology, c_uint, c_uint], mutPtr topologyObject⟩,
    ⟨"hwloc_set_cpubind", [mutPtr hwlocTopology, constPtr intHwlocBitmap, c_int], c_int⟩,
    ⟨"hwloc_get_cpubind", [mutPtr hwlocTopology, mutPtr intHwlocBitmap, c_int], c_int⟩,
    ⟨"hwloc_get_last_cpu_location", [mutPtr hwlocTopology, mutPtr intHwlocBitmap, c_int], c_int⟩,
    ⟨"hwloc_get_proc_last_cpu_location", [mutPtr hwlocTopology, pid_t, mutPtr intHwlocBitmap, c_int], c_int⟩,
    ⟨"hwloc_set_proc_cpubind", [mutPtr hwlocTopology, pid_t, constPtr intHwlocBitmap, c_int], c_int⟩,
    ⟨"hwloc_get_proc_cpubind", [mutPtr hwlocTopology, pid_t, mutPtr intHwlocBitmap, c_int], c_int⟩,
    ⟨"hwloc_set_thread_cpubind", [mutPtr hwlocTopology, pthread_t, constPtr intHwlocBitmap, c_int], c_int⟩,
    ⟨"hwloc_get_thread_cpubind", [mutPtr hwlocTopology, pthread_t, mutPtr intHwlocBitmap, c_int], c_int⟩,
    ⟨"hwloc_bitmap_alloc", [], mutPtr intHwlocBitmap⟩,
    ⟨"hwloc_bitmap_alloc_full", [], mutPtr intHwlocBitmap⟩,
    ⟨"hwloc_bitmap_free", [mutPtr intHwlocBitmap], void⟩,
    ⟨"hwloc_bitmap_list_asprintf", [mutPtr (mutPtr c_char), constPtr intHwlocBitmap], c_int⟩,
    ⟨"hwloc_bitmap_set", [mutPtr intHwlocBitmap, c_uint], void⟩,
    ⟨"hwloc_bitmap_set_range", [mutPtr intHwlocBitmap, c_uint, c_int], void⟩,
    ⟨"hwloc_bitmap_clr", [mutPtr intHwlocBitmap, c_uint], void⟩,
    ⟨"hwloc_bitmap_clr_range", [mutPtr intHwlocBitmap, c_uint, c_int], void⟩,
    ⟨"hwloc_bitmap_weight", [constPtr intHwlocBitmap], c_int⟩,
    ⟨"hwloc_bitmap_zero", [mutPtr intHwlocBitmap], void⟩,
    ⟨"hwloc_bitmap_iszero", [constPtr intHwlocBitmap], c_int⟩,
    ⟨"hwloc_bitmap_isset", [constPtr intHwlocBitmap, c_uint], c_int⟩,
    ⟨"hwloc_bitmap_singlify", [mutPtr intHwlocBitmap], void⟩,
    ⟨"hwloc_bitmap_not", [mutPtr intHwlocBitmap, constPtr intHwlocBitmap], void⟩,
    ⟨"hwloc_bitmap_first", [constPtr intHwlocBitmap], c_int⟩,
    ⟨"hwloc_bitmap_last", [constPtr intHwlocBitmap], c_int⟩,
    ⟨"hwloc_bitmap_dup", [constPtr intHwlocBitmap], mutPtr intHwlocBitmap⟩,
    ⟨"hwloc_bitmap_compare", [constPtr intHwlocBitmap, constPtr intHwlocBitmap], c_int⟩,
    ⟨"hwloc_bitmap_isequal", [constPtr intHwlocBitmap, constPtr intHwlocBitmap], c_int⟩,
    ⟨"hwloc_bitmap_isfull", [constPtr intHwlocBitmap], c_int⟩,
    ⟨"hwloc_bitmap_next", [constPtr intHwlocBitmap, c_int], c_int⟩,
    ⟨"hwloc_obj_type_snprintf", [mutPtr c_char, c_int, constPtr topologyObject, cbool], c_int⟩,
    ⟨"hwloc_obj_attr_snprintf", [mutPtr c_char, c_int, constPtr topologyObject, constPtr c_char, cbool], c_int⟩,
    ⟨"hwloc_compare_types", [objectType, objectType], c_int⟩ ]

/-- C1: for every foreign comparison result function and every pair of
`ObjectType` values, `partial_cmp` is a direct pass-through of the signed
integer returned by `hwloc_compare_types`: `Some(Less)` exactly when it is
negative, `Some(Equal)` exactly when it is zero, `Some(Greater)` exactly
when it is positive, and `None` otherwise (i.e. only in the impossible
case where the integer is neither negative, zero, nor positive). -/
theorem objectType_pcmp_passthrough (cmp : ObjectType → ObjectType → Int)
    (a b : ObjectType) :
    (ObjectType.pcmp cmp a b = some Ordering.lt ↔ cmp a b < 0) ∧
    (ObjectType.pcmp cmp a b = some Ordering.eq ↔ cmp a b = 0) ∧
    (ObjectType.pcmp cmp a b = some Ordering.gt ↔ 0 < cmp a b) ∧
    (ObjectType.pcmp cmp a b = none ↔
      ¬(cmp a b < 0 ∨ cmp a b = 0 ∨ 0 < cmp a b)) := by
  unfold ObjectType.pcmp
  rcases lt_trichotomy (cmp a b) 0 with h | h | h
  · simp [h, h.ne, not_lt_of_gt h]
  · simp [h]
  · simp [h, h.ne.symm, not_lt_of_gt h]

/-- C8: the `None` branch of `partial_cmp` is unreachable: whatever signed
integer the foreign comparison returns, the guards `c < 0`, `c == 0`,
`c > 0` are exhaustive, so `partial_cmp` never returns `None`. -/
theorem objectType_pcmp_never_none (cmp : ObjectType → ObjectType → Int)
    (a b : ObjectType) : ObjectType.pcmp cmp a b ≠ none := by
  unfold ObjectType.pcmp
  rcases lt_trichotomy (cmp a b) 0 with h | h | h
  · simp [h]
  · simp [h]
  · simp [h, h.ne.symm, not_lt_of_gt h]

/-- C9: equality of `ObjectType` is determined solely by the delegated
comparison: `a == b` holds exactly when `partial_cmp(a, b)` is
`Some(Ordering::Equal)`, i.e. exactly when the foreign comparison returns
zero. -/
theorem objectType_eq_iff_cmp_zero (cmp : ObjectType → ObjectType → Int)
    (a b : ObjectType) :
    (ObjectType.rustEq cmp a b = true ↔
      ObjectType.pcmp cmp a b = some Ordering.eq) ∧
    (ObjectType.rustEq cmp a b = true ↔ cmp a b = 0) := by
  have hmain : ObjectType.rustEq cmp a b = true ↔
      ObjectType.pcmp cmp a b = some Ordering.eq := by
    unfold ObjectType.rustEq
    rcases hp : ObjectType.pcmp cmp a b with _ | o
    · simp
    · cases o <;> simp
  exact ⟨hmain, hmain.trans (objectType_pcmp_passthrough cmp a b).2.1⟩

/-- C4: under the spec-modelled containment-depth contract for
`hwloc_compare_types`, object-type ordering is consistent with containment
depth through `partial_cmp`: `Machine < PU` and `PU > L1Cache`. -/
theorem objectType_ordering_consistent_with_depth :
    ObjectType.pcmp hwloc_compare_types ObjectType.Machine ObjectType.PU =
      some Ordering.lt ∧
    ObjectType.pcmp hwloc_compare_types ObjectType.PU ObjectType.L1Cache =
      some Ordering.gt := by
  decide

/-- C2: the flag-to-integer mapping of `TopologyFlag` equals the documented
constants: `to_i64` gives 1, 2, 4 for the three variants and `to_u64`
gives the same values. -/
theorem topologyFlag_to_primitive_values :
    TopologyFlag.to_i64 .IncludeDisallowed = some 1 ∧
    TopologyFlag.to_i64 .IsThisSystem = some 2 ∧
    TopologyFlag.to_i64 .ThisSystemAllowedResources = some 4 ∧
    TopologyFlag.to_u64 .IncludeDisallowed = some 1 ∧
    TopologyFlag.to_u64 .IsThisSystem = some 2 ∧
    TopologyFlag.to_u64 .ThisSystemAllowedResources = some 4 := by
  decide

/-- C7: round-trip of the `TopologyFlag` conversions: for every flag,
`from_i64` after `to_i64` recovers the flag, `from_u64` after `to_u64`
recovers it too, and for every signed 64-bit integer outside 1, 2, 4
`from_i64` returns `None`. -/
theorem topologyFlag_roundtrip (f : TopologyFlag) (n : Int)
    (hn : n ≠ 1 ∧ n ≠ 2 ∧ n ≠ 4) :
    (TopologyFlag.to_i64 f).bind TopologyFlag.from_i64 = some f ∧
    (TopologyFlag.to_u64 f).bind TopologyFlag.from_u64 = some f ∧
    TopologyFlag.from_i64 n = none := by
  refine ⟨?_, ?_, ?_⟩
  · cases f <;> decide
  · cases f <;> decide
  · unfold TopologyFlag.from_i64 TOPOLOGY_FLAG_IS_THIS_SYSTEM
      TOPOLOGY_FLAG_INCLUDE_DISALLOWED TOPOLOGY_FLAG_THISSYSTEM_ALLOWED_RESOURCES
    simp [hn.1, hn.2.1, hn.2.2]

/-- Witness for C7 at the concrete flag `IsThisSystem` and the concrete
out-of-range integer 3. -/
theorem topologyFlag_roundtrip_witness :
    ((3 : Int) ≠ 1 ∧ (3 : Int) ≠ 2 ∧ (3 : Int) ≠ 4) ∧
    ((TopologyFlag.to_i64 .IsThisSystem).bind TopologyFlag.from_i64 =
        some .IsThisSystem ∧
      (TopologyFlag.to_u64 .IsThisSystem).bind TopologyFlag.from_u64 =
        some .IsThisSystem ∧
      TopologyFlag.from_i64 3 = none) :=
  ⟨by decide, topologyFlag_roundtrip .IsThisSystem 3 (by decide)⟩

/-- C3 counterexample: the claim that every `TypeDepthError` variant
belongs to the closed set of eight sentinels -1 through -8 fails at the
concrete variant `Unkown`, whose discriminant is -99. -/
theorem typeDepthError_unkown_outside_listed_set :
    TypeDepthError.discriminant TypeDepthError.Unkown = -99 ∧
    TypeDepthError.discriminant TypeDepthError.Unkown ∉
      ([-1, -2, -3, -4, -5, -6, -7, -8] : List Int) := by
  decide

/-- C3 amended: `TypeDepthError` assigns -1 to `TypeDepthUnknown`, -2 to
`TypeDepthMultiple`, -3 through -8 to the virtual-depth markers, and -99
to the catch-all `Unkown` variant; every variant has a negative
discriminant and belongs to the closed set of these nine values. -/
theorem typeDepthError_closed_negative_set :
    TypeDepthError.discriminant .TypeDepthUnknown = -1 ∧
    TypeDepthError.discriminant .TypeDepthMultiple = -2 ∧
    TypeDepthError.discriminant .TypeDepthNumaNode = -3 ∧
    TypeDepthError.discriminant .TypeDepthBridge = -4 ∧
    TypeDepthError.discriminant .TypeDepthPCIDevice = -5 ∧
    TypeDepthError.discriminant .TypeDepthOSDevice = -6 ∧
    TypeDepthError.discriminant .TypeDepthMisc = -7 ∧
    TypeDepthError.discriminant .TypeDepthMemcache = -8 ∧
    TypeDepthError.discriminant .Unkown = -99 ∧
    ∀ e : TypeDepthError, TypeDepthError.discriminant e < 0 ∧
      TypeDepthError.discriminant e ∈
        ([-1, -2, -3, -4, -5, -6, -7, -8, -99] : List Int) := by
  decide

/-- C6: the `ObjectType` enumeration mirrors the native integer constants:
its discriminants are sequential 0 through 20 in declaration order and
every one fits in a `u32`. -/
theorem objectType_discriminants_sequential :
    ObjectType.toU32 .Machine = 0 ∧
    ObjectType.toU32 .Package = 1 ∧
    ObjectType.toU32 .Core = 2 ∧
    ObjectType.toU32 .PU = 3 ∧
    ObjectType.toU32 .L1Cache = 4 ∧
    ObjectType.toU32 .L2Cache = 5 ∧
    ObjectType.toU32 .L3Cache = 6 ∧
    ObjectType.toU32 .L4Cache = 7 ∧
    ObjectType.toU32 .L5Cache = 8 ∧
    ObjectType.toU32 .L1ICache = 9 ∧
    ObjectType.toU32 .L2ICache = 10 ∧
    ObjectType.toU32 .L3ICache = 11 ∧
    ObjectType.toU32 .Group = 12 ∧
    ObjectType.toU32 .NUMANode = 13 ∧
    ObjectType.toU32 .Bridge = 14 ∧
    ObjectType.toU32 .PCIDevice = 15 ∧
    ObjectType.toU32 .OSDevice = 16 ∧
    ObjectType.toU32 .Misc = 17 ∧
    ObjectType.toU32 .Memcache = 18 ∧
    ObjectType.toU32 .Die = 19 ∧
    ObjectType.toU32 .TypeMax = 20 ∧
    ∀ t : ObjectType, ObjectType.toU32 t < 2 ^ 32 := by
  decide

/-- C5: the extern block linked as "libhwloc" on windows and the extern
block linked as "hwloc" elsewhere declare exactly the same functions, with
identical names, parameter types, parameter order, and return types. -/
theorem extern_blocks_identical : windowsExternDecls = unixExternDecls := by
  rfl

end HwlocRs
